import Mathlib

/-!
# Socket helper layer: embedding and verified properties

The C functions of `src/socket_helper.c` are embedded as Lean functions in a
small trace monad.  Every call that leaves the program (system calls and the
libc calls `inet_pton` and `perror`) is recorded, with its arguments and the
reply it received, in a chronological trace.  The replies come from an
arbitrary oracle that may depend on the whole history, so a statement
quantified over the oracle covers every outcome of the underlying calls.

C `int` values are `Int`; where the source computes in `int`, the result is
wrapped to 32 bits explicitly (`wrap32`).  Byte strings are `List Nat`; a C
string is the bytes before the first `0` (`cstr`).  A null pointer is `none`.

The logger (`src/logger.c`) is embedded by explicit state passing over its
file-level variables, and the configuration parser (`src/config_parser.c`) as
functions of an environment that answers `popen` and `system`.
-/

namespace SocketHelper

/-! ## Constants of `gaming_common.h` and `socket_helper.h` -/

/-- The error code `GAMING_OK`. -/
def GAMING_OK : Int := 0

/-- The error code `GAMING_ERROR`. -/
def GAMING_ERROR : Int := -1

/-- The error code `GAMING_ERROR_INVALID_PARAM`. -/
def GAMING_ERROR_INVALID_PARAM : Int := -2

/-- The default listen queue length, `SOCKET_DEFAULT_BACKLOG`. -/
def SOCKET_DEFAULT_BACKLOG : Int := 5

/-! ## Data passed to the operating system -/

/-- Address families; `AF_UNSPEC` is the value a zeroed structure holds. -/
inductive Family where
  | AF_UNSPEC
  | AF_UNIX
  | AF_INET
  deriving DecidableEq, Repr

/-- The socket options the program sets. -/
inductive SockOpt where
  | SO_RCVTIMEO
  | SO_SNDTIMEO
  | SO_REUSEADDR
  deriving DecidableEq, Repr

/-- The C `struct timeval`. -/
structure Timeval where
  tv_sec : Int
  tv_usec : Int
  deriving DecidableEq, Repr

/-- The C `struct sockaddr_un`; `sun_path` is the whole character array. -/
structure SockaddrUn where
  sun_family : Family
  sun_path : List Nat
  deriving DecidableEq, Repr

/-- The C `struct sockaddr_in`; `sin_port` and `s_addr` are the bytes as they
lie in memory, that is in network byte order. -/
structure SockaddrIn where
  sin_family : Family
  sin_port : List Nat
  s_addr : List Nat
  deriving DecidableEq, Repr

/-- A socket address of either family, as passed to `bind` and `connect`. -/
inductive Sockaddr where
  | un (a : SockaddrUn)
  | inet (a : SockaddrIn)
  deriving DecidableEq, Repr

/-- The value handed to `setsockopt`. -/
inductive OptVal where
  | timeval (tv : Timeval)
  | int (v : Int)
  deriving DecidableEq, Repr

/-- The calls that leave the program, with their arguments.  `socket` is always
called with `SOCK_STREAM` and protocol `0`; pointers to opaque buffers are
`Option Nat` (`none` is `NULL`); an `fd_set` argument is the list of the
descriptors it holds, `none` for a `NULL` set. -/
inductive Call where
  | socket (domain : Family)
  | unlink (name : List Nat)
  | bind (fd : Int) (addr : Sockaddr)
  | listen (fd : Int) (backlog : Int)
  | connect (fd : Int) (addr : Sockaddr)
  | inet_pton (af : Family) (host : List Nat)
  | close (fd : Int)
  | setsockopt (fd : Int) (opt : SockOpt) (val : OptVal)
  | fcntl_getfl (fd : Int)
  | fcntl_setfl (fd : Int) (flags : Nat)
  | send (fd : Int) (data : Option Nat) (len : Nat) (flags : Int)
  | recv (fd : Int) (buffer : Option Nat) (len : Nat) (flags : Int)
  | select (nfds : Int) (readfds writefds exceptfds : Option (List Int)) (timeout : Timeval)
  | perror (msg : String)
  deriving DecidableEq, Repr

/-- What a call gives back: its return value and, for the calls that write
through a pointer, the data written (`fdset` for `select`, `in_addr` for
`inet_pton`). -/
structure Reply where
  ret : Int
  fdset : List Int
  in_addr : List Nat
  deriving DecidableEq, Repr

/-- One entry of the trace: a call and the reply it received. -/
structure Event where
  call : Call
  reply : Reply
  deriving DecidableEq, Repr

/-- The environment: the reply to a call, given everything that happened before. -/
def Oracle : Type := List Event → Call → Reply

/-- Computations that make calls: they read the oracle and extend the trace. -/
def Sys (α : Type) : Type := Oracle → List Event → α × List Event

/-- Return a value without making a call. -/
def Sys.pure {α : Type} (a : α) : Sys α := fun _ tr => (a, tr)

/-- Sequence two computations. -/
def Sys.bind {α β : Type} (m : Sys α) (f : α → Sys β) : Sys β :=
  fun o tr => f (m o tr).1 o (m o tr).2

instance : Monad Sys where
  pure := Sys.pure
  bind := Sys.bind

/-- Make one call: ask the oracle and append the event to the trace. -/
def sys (c : Call) : Sys Reply :=
  fun o tr => (o tr c, tr ++ [⟨c, o tr c⟩])

/-- Run a computation from the empty trace. -/
def Sys.run {α : Type} (m : Sys α) (o : Oracle) : α × List Event := m o []

/-! ## Helpers from libc, modelled by their specification -/

/-- The C string held at a pointer: the bytes before the first NUL. -/
def cstr (s : List Nat) : List Nat := s.takeWhile (fun c => c ≠ 0)

/-- The C `strlen`. -/
def strlen (s : List Nat) : Nat := (cstr s).length

/-- The C `memset` of a fresh array of `n` bytes. -/
def memset (n : Nat) (c : Nat) : List Nat := List.replicate n c

/-- The C `strncpy(dst, src, n)`: exactly `n` bytes of `dst` are written, the
first `min (strlen src) n` from `src` and the rest zero; `dst` keeps its bytes
from index `n` on. -/
def strncpy (dst src : List Nat) (n : Nat) : List Nat :=
  (cstr src).take n ++ List.replicate (n - ((cstr src).take n).length) 0 ++ dst.drop n

/-- The C `htons`: the argument is converted to `uint16_t`; the result is given
as the two bytes stored in memory, most significant first. -/
def htons (hostshort : Int) : List Nat :=
  [(hostshort % 65536).toNat / 256, (hostshort % 65536).toNat % 256]

/-- The address `INADDR_ANY`, as the four bytes of `s_addr`. -/
def INADDR_ANY : List Nat := [0, 0, 0, 0]

/-- Wrap an integer to the range of a 32-bit C `int`. -/
def wrap32 (x : Int) : Int := (x + 2147483648) % 4294967296 - 2147483648

/-! ## Socket options (`socket_helper.c`, lines 169-222) -/

/-- The function `socket_helper_set_timeout`. -/
def socket_helper_set_timeout (sockfd : Int) (timeout_sec : Int) : Sys Int :=
  if sockfd < 0 then pure GAMING_ERROR_INVALID_PARAM
  else
    let timeout : Timeval := { tv_sec := timeout_sec, tv_usec := 0 }
    do
      let r ← sys (Call.setsockopt sockfd SockOpt.SO_RCVTIMEO (OptVal.timeval timeout))
      if r.ret < 0 then do
        let _ ← sys (Call.perror "setsockopt(SO_RCVTIMEO)")
        pure GAMING_ERROR
      else do
        let s ← sys (Call.setsockopt sockfd SockOpt.SO_SNDTIMEO (OptVal.timeval timeout))
        if s.ret < 0 then do
          let _ ← sys (Call.perror "setsockopt(SO_SNDTIMEO)")
          pure GAMING_ERROR
        else pure GAMING_OK

/-- The constant `O_NONBLOCK` is a platform flag bit, taken as a parameter;
the function `socket_helper_set_nonblocking`. -/
def socket_helper_set_nonblocking (O_NONBLOCK : Nat) (sockfd : Int) : Sys Int :=
  if sockfd < 0 then pure GAMING_ERROR_INVALID_PARAM
  else do
    let g ← sys (Call.fcntl_getfl sockfd)
    let flags := g.ret
    if flags < 0 then do
      let _ ← sys (Call.perror "fcntl(F_GETFL)")
      pure GAMING_ERROR
    else do
      let s ← sys (Call.fcntl_setfl sockfd (flags.toNat ||| O_NONBLOCK))
      if s.ret < 0 then do
        let _ ← sys (Call.perror "fcntl(F_SETFL)")
        pure GAMING_ERROR
      else pure GAMING_OK

/-- The function `socket_helper_set_reuseaddr`. -/
def socket_helper_set_reuseaddr (sockfd : Int) : Sys Int :=
  if sockfd < 0 then pure GAMING_ERROR_INVALID_PARAM
  else do
    let r ← sys (Call.setsockopt sockfd SockOpt.SO_REUSEADDR (OptVal.int 1))
    if r.ret < 0 then do
      let _ ← sys (Call.perror "setsockopt(SO_REUSEADDR)")
      pure GAMING_ERROR
    else pure GAMING_OK

/-! ## Unix domain sockets (`socket_helper.c`, lines 21-85) -/

/-- The address both Unix functions build: `memset`, then the family, then
`strncpy(addr.sun_path, path, sizeof(addr.sun_path) - 1)`.  The size of
`sun_path` comes from the platform header and is the parameter `N`. -/
def unix_addr (N : Nat) (path : List Nat) : SockaddrUn :=
  { sun_family := Family.AF_UNIX, sun_path := strncpy (memset N 0) path (N - 1) }

/-- The function `socket_helper_create_unix`. -/
def socket_helper_create_unix (N : Nat) (path : Option (List Nat)) : Sys Int :=
  match path with
  | none => pure (-1)
  | some p => do
    let s ← sys (Call.socket Family.AF_UNIX)
    let sockfd := s.ret
    if sockfd < 0 then do
      let _ ← sys (Call.perror "socket")
      pure (-1)
    else do
      let addr := unix_addr N p
      let _ ← sys (Call.unlink (cstr p))
      let b ← sys (Call.bind sockfd (Sockaddr.un addr))
      if b.ret < 0 then do
        let _ ← sys (Call.perror "bind")
        let _ ← sys (Call.close sockfd)
        pure (-1)
      else do
        let l ← sys (Call.listen sockfd SOCKET_DEFAULT_BACKLOG)
        if l.ret < 0 then do
          let _ ← sys (Call.perror "listen")
          let _ ← sys (Call.close sockfd)
          pure (-1)
        else pure sockfd

/-- The function `socket_helper_connect_unix`. -/
def socket_helper_connect_unix (N : Nat) (path : Option (List Nat)) : Sys Int :=
  match path with
  | none => pure (-1)
  | some p => do
    let s ← sys (Call.socket Family.AF_UNIX)
    let sockfd := s.ret
    if sockfd < 0 then do
      let _ ← sys (Call.perror "socket")
      pure (-1)
    else do
      let addr := unix_addr N p
      let c ← sys (Call.connect sockfd (Sockaddr.un addr))
      if c.ret < 0 then do
        let _ ← sys (Call.perror "connect")
        let _ ← sys (Call.close sockfd)
        pure (-1)
      else pure sockfd

/-! ## TCP sockets (`socket_helper.c`, lines 91-163) -/

/-- The function `socket_helper_create_tcp_server`. -/
def socket_helper_create_tcp_server (port : Int) (backlog : Int) : Sys Int :=
  if port ≤ 0 ∨ port > 65535 then pure (-1)
  else do
    let s ← sys (Call.socket Family.AF_INET)
    let sockfd := s.ret
    if sockfd < 0 then do
      let _ ← sys (Call.perror "socket")
      pure (-1)
    else do
      let _ ← socket_helper_set_reuseaddr sockfd
      let addr : SockaddrIn :=
        { sin_family := Family.AF_INET, s_addr := INADDR_ANY, sin_port := htons port }
      let b ← sys (Call.bind sockfd (Sockaddr.inet addr))
      if b.ret < 0 then do
        let _ ← sys (Call.perror "bind")
        let _ ← sys (Call.close sockfd)
        pure (-1)
      else do
        let listen_backlog := if backlog > 0 then backlog else SOCKET_DEFAULT_BACKLOG
        let l ← sys (Call.listen sockfd listen_backlog)
        if l.ret < 0 then do
          let _ ← sys (Call.perror "listen")
          let _ ← sys (Call.close sockfd)
          pure (-1)
        else pure sockfd

/-- The function `socket_helper_connect_tcp`. -/
def socket_helper_connect_tcp (host : Option (List Nat)) (port : Int) : Sys Int :=
  match host with
  | none => pure (-1)
  | some h =>
    if port ≤ 0 ∨ port > 65535 then pure (-1)
    else do
      let s ← sys (Call.socket Family.AF_INET)
      let sockfd := s.ret
      if sockfd < 0 then do
        let _ ← sys (Call.perror "socket")
        pure (-1)
      else do
        let addr0 : SockaddrIn :=
          { sin_family := Family.AF_INET, s_addr := memset 4 0, sin_port := htons port }
        let p ← sys (Call.inet_pton Family.AF_INET (cstr h))
        if p.ret ≤ 0 then do
          let _ ← sys (Call.perror "inet_pton")
          let _ ← sys (Call.close sockfd)
          pure (-1)
        else do
          let addr : SockaddrIn := { addr0 with s_addr := p.in_addr }
          let c ← sys (Call.connect sockfd (Sockaddr.inet addr))
          if c.ret < 0 then do
            let _ ← sys (Call.perror "connect")
            let _ ← sys (Call.close sockfd)
            pure (-1)
          else pure sockfd

/-! ## Transfer (`socket_helper.c`, lines 228-248) -/

/-- The function `socket_helper_send`. -/
def socket_helper_send (sockfd : Int) (data : Option Nat) (len : Nat) : Sys Int :=
  if sockfd < 0 ∨ data = none ∨ len = 0 then pure (-1)
  else do
    let r ← sys (Call.send sockfd data len 0)
    pure r.ret

/-- The function `socket_helper_recv`. -/
def socket_helper_recv (sockfd : Int) (buffer : Option Nat) (len : Nat) : Sys Int :=
  if sockfd < 0 ∨ buffer = none ∨ len = 0 then pure (-1)
  else do
    let r ← sys (Call.recv sockfd buffer len 0)
    pure r.ret

/-- The function `socket_helper_close`. -/
def socket_helper_close (sockfd : Int) : Sys Unit :=
  if sockfd ≥ 0 then do
    let _ ← sys (Call.close sockfd)
    pure ()
  else pure ()

/-! ## Readiness (`socket_helper.c`, lines 254-288) -/

/-- The macro `FD_ZERO`: the empty set. -/
def FD_ZERO : List Int := []

/-- The macro `FD_SET` on an `fd_set` of `FD_SETSIZE` bits, a constant of the
platform header taken as a parameter.  It is defined for `0 <= fd < FD_SETSIZE`
only: outside that range the macro writes outside the set and the behaviour
is undefined, which is `none`. -/
def FD_SET (FD_SETSIZE : Nat) (fd : Int) (set : List Int) : Option (List Int) :=
  if 0 ≤ fd ∧ fd < FD_SETSIZE then some (fd :: set) else none

/-- The macro `FD_ISSET`. -/
def FD_ISSET (fd : Int) (set : List Int) : Bool := decide (fd ∈ set)

/-- The timeval both readiness functions build from `timeout_ms`: C division
and remainder truncate toward zero, and the product is computed in `int`. -/
def ms_timeval (timeout_ms : Int) : Timeval :=
  { tv_sec := Int.tdiv timeout_ms 1000,
    tv_usec := wrap32 (Int.tmod timeout_ms 1000 * 1000) }

/-- The function `socket_helper_is_readable`.  The result `some b` is the
boolean returned; `none` is undefined behaviour, reached when `FD_SET` is
applied to a descriptor outside the set. -/
def socket_helper_is_readable (FD_SETSIZE : Nat) (sockfd : Int) (timeout_ms : Int) :
    Sys (Option Bool) :=
  if sockfd < 0 then pure (some false)
  else
    match FD_SET FD_SETSIZE sockfd FD_ZERO with
    | none => pure none
    | some readfds =>
      let timeout := ms_timeval timeout_ms
      do
        let r ← sys (Call.select (wrap32 (sockfd + 1)) (some readfds) none none timeout)
        pure (some (decide (r.ret > 0) && FD_ISSET sockfd r.fdset))

/-- The function `socket_helper_is_writable`, with the same convention for the
result. -/
def socket_helper_is_writable (FD_SETSIZE : Nat) (sockfd : Int) (timeout_ms : Int) :
    Sys (Option Bool) :=
  if sockfd < 0 then pure (some false)
  else
    match FD_SET FD_SETSIZE sockfd FD_ZERO with
    | none => pure none
    | some writefds =>
      let timeout := ms_timeval timeout_ms
      do
        let r ← sys (Call.select (wrap32 (sockfd + 1)) none (some writefds) none timeout)
        pure (some (decide (r.ret > 0) && FD_ISSET sockfd r.fdset))

/-! ## Sample environments -/

/-- An environment in which every call succeeds: `socket` yields descriptor 3,
`inet_pton` yields 1 and the address 127.0.0.1, `select` reports one ready
descriptor, descriptor 3. -/
def okOracle : Oracle := fun _ c =>
  match c with
  | Call.socket _ => ⟨3, [], []⟩
  | Call.inet_pton _ _ => ⟨1, [], [127, 0, 0, 1]⟩
  | Call.select _ _ _ _ _ => ⟨1, [3], []⟩
  | _ => ⟨0, [], []⟩

/-- Whether an event is one of the factory steps after `socket` (host
conversion, bind, listen, connect) that failed: `inet_pton` fails with a
result at most 0, the others with a negative result. -/
def Event.stepFailed (e : Event) : Bool :=
  match e.call with
  | Call.inet_pton _ _ => decide (e.reply.ret ≤ 0)
  | Call.bind _ _ => decide (e.reply.ret < 0)
  | Call.listen _ _ => decide (e.reply.ret < 0)
  | Call.connect _ _ => decide (e.reply.ret < 0)
  | _ => false

/-- The backlog arguments of the `listen` calls of a trace, in order. -/
def listenBacklogs (tr : List Event) : List Int :=
  tr.filterMap fun e =>
    match e.call with
    | Call.listen _ b => some b
    | _ => none

/-- Whether some `bind` of the trace succeeded. -/
def bindSucceeded (tr : List Event) : Bool :=
  tr.any fun e =>
    match e.call with
    | Call.bind _ _ => decide (0 ≤ e.reply.ret)
    | _ => false

/-- The addresses given to the `bind` and `connect` calls of a trace, in order. -/
def boundOrConnected (tr : List Event) : List Sockaddr :=
  tr.filterMap fun e =>
    match e.call with
    | Call.bind _ a => some a
    | Call.connect _ a => some a
    | _ => none

/-- The calls of a trace that reach the operating system, in order: every
call but the diagnostic `perror`. -/
def sysCalls (tr : List Event) : List Call :=
  (tr.map Event.call).filter fun c =>
    match c with
    | Call.perror _ => false
    | _ => true

/-- The file status flags the kernel holds for `fd` after a trace, starting
from `f0`: the argument of the last `fcntl(fd, F_SETFL, _)` that succeeded. -/
def kernelFlags (f0 : Nat) (fd : Int) : List Event → Nat
  | [] => f0
  | e :: rest =>
    match e.call with
    | Call.fcntl_setfl fd1 x =>
      if fd1 = fd ∧ 0 ≤ e.reply.ret then kernelFlags x fd rest else kernelFlags f0 fd rest
    | _ => kernelFlags f0 fd rest

/-- An environment is coherent for the flags of `fd` when `fcntl(fd, F_GETFL)`
always reports the flags the kernel holds at that point of the history. -/
def FlagsCoherent (o : Oracle) (f0 : Nat) (fd : Int) : Prop :=
  ∀ tr, (o tr (Call.fcntl_getfl fd)).ret = (kernelFlags f0 fd tr : Nat)

/-- An environment whose `fcntl` calls all succeed and in which `F_GETFL`
reports the flags last set, starting from `f0` on every descriptor. -/
def flagsOracle (f0 : Nat) : Oracle := fun tr c =>
  match c with
  | Call.fcntl_getfl fd => ⟨(kernelFlags f0 fd tr : Nat), [], []⟩
  | _ => ⟨0, [], []⟩

/-- An environment whose replies do not depend on the history: `r` to every
`setsockopt` and `f c` to any other call `c`. -/
def withSetsockoptReply (f : Call → Reply) (r : Reply) : Oracle := fun _ c =>
  match c with
  | Call.setsockopt _ _ _ => r
  | _ => f c

end SocketHelper

/-! # Logger (`logger.c`) -/

namespace Logger

/-- The level `LOG_LEVEL_DEBUG` of `gaming_common.h`. -/
def LOG_LEVEL_DEBUG : Int := 0

/-- The level `LOG_LEVEL_INFO`. -/
def LOG_LEVEL_INFO : Int := 1

/-- The level `LOG_LEVEL_WARN`. -/
def LOG_LEVEL_WARN : Int := 2

/-- The level `LOG_LEVEL_ERROR`. -/
def LOG_LEVEL_ERROR : Int := 3

/-- The target `LOG_TARGET_SYSLOG` of `logger.h`. -/
def LOG_TARGET_SYSLOG : Int := 0

/-- The target `LOG_TARGET_CONSOLE`. -/
def LOG_TARGET_CONSOLE : Int := 1

/-- The target `LOG_TARGET_BOTH`. -/
def LOG_TARGET_BOTH : Int := 2

/-- The bytes of a string literal. -/
def bytes (s : String) : List Nat := s.toList.map Char.toNat

/-- The file-level variables of `logger.c`.  A value of an enumeration type is
the integer it holds, so that values outside the named constants exist. -/
structure LoggerState where
  logger_initialized : Bool
  logger_ident : List Nat
  current_log_level : Int
  current_log_target : Int
  deriving DecidableEq, Repr

/-- The values the variables have when the program starts. -/
def initialState : LoggerState :=
  { logger_initialized := false,
    logger_ident := bytes "gaming" ++ List.replicate 58 0,
    current_log_level := LOG_LEVEL_INFO,
    current_log_target := LOG_TARGET_CONSOLE }

/-- The calls the logger makes to the system log; `openlog` is always called
with the options `LOG_PID | LOG_CONS` and the facility `LOG_USER`. -/
inductive SyslogCall where
  | openlog (ident : List Nat)
  | closelog
  deriving DecidableEq, Repr

/-- The C `strcpy(dst, src)`: the string and its terminator are written, the
rest of `dst` is kept. -/
def strcpy (dst src : List Nat) : List Nat :=
  SocketHelper.cstr src ++ [0] ++ dst.drop (SocketHelper.strlen src + 1)

/-- The function `logger_init`: result, new state and the system log calls made. -/
def logger_init (ident : Option (List Nat)) (level target : Int) (s : LoggerState) :
    Int × LoggerState × List SyslogCall :=
  if level < LOG_LEVEL_ERROR ∨ level > LOG_LEVEL_DEBUG then
    (SocketHelper.GAMING_ERROR_INVALID_PARAM, s, [])
  else if target < LOG_TARGET_SYSLOG ∨ target > LOG_TARGET_BOTH then
    (SocketHelper.GAMING_ERROR_INVALID_PARAM, s, [])
  else
    let ident1 :=
      match ident with
      | some i => (SocketHelper.strncpy s.logger_ident i 63).set 63 0
      | none => strcpy s.logger_ident (bytes "gaming")
    let calls :=
      if target = LOG_TARGET_SYSLOG ∨ target = LOG_TARGET_BOTH
      then [SyslogCall.openlog (SocketHelper.cstr ident1)] else []
    (SocketHelper.GAMING_OK,
      { logger_initialized := true, logger_ident := ident1,
        current_log_level := level, current_log_target := target },
      calls)

/-- The function `logger_set_level`: result and new state. -/
def logger_set_level (level : Int) (s : LoggerState) : Int × LoggerState :=
  if level < LOG_LEVEL_ERROR ∨ level > LOG_LEVEL_DEBUG then
    (SocketHelper.GAMING_ERROR_INVALID_PARAM, s)
  else
    (SocketHelper.GAMING_OK, { s with current_log_level := level })

/-- The function `logger_get_level`. -/
def logger_get_level (s : LoggerState) : Int := s.current_log_level

/-- The function `logger_should_log`. -/
def logger_should_log (level : Int) (s : LoggerState) : Bool :=
  if !s.logger_initialized then false
  else decide (level ≥ s.current_log_level)

end Logger

/-! # Configuration parser (`config_parser.c`) -/

namespace ConfigParser

/-- The bytes of a string literal. -/
def bytes (s : String) : List Nat := s.toList.map Char.toNat

/-- The error code `GAMING_ERROR_NOT_INITIALIZED` of `gaming_common.h`. -/
def GAMING_ERROR_NOT_INITIALIZED : Int := -3

/-- The error code `GAMING_ERROR_NOT_FOUND`. -/
def GAMING_ERROR_NOT_FOUND : Int := -6

/-- The environment of the parser: `popen` gives the bytes the command prints,
or `none` when the pipe cannot be opened; `system` gives the exit status. -/
structure UciEnv where
  popen : List Nat → Option (List Nat)
  system : List Nat → Int

/-- The C `tolower` in the C locale. -/
def tolower (c : Nat) : Nat := if 65 ≤ c ∧ c ≤ 90 then c + 32 else c

/-- Byte-wise comparison of two strings without terminator: 0 when equal,
otherwise the difference at the first position where they differ, the end of
a string counting as the byte 0. -/
def cmpBytes : List Nat → List Nat → Int
  | [], [] => 0
  | [], b :: _ => -(b : Int)
  | a :: _, [] => (a : Int)
  | a :: as, b :: bs => if a = b then cmpBytes as bs else (a : Int) - (b : Int)

/-- The C `strcmp`. -/
def strcmp (a b : List Nat) : Int := cmpBytes (SocketHelper.cstr a) (SocketHelper.cstr b)

/-- The C `strcasecmp`. -/
def strcasecmp (a b : List Nat) : Int :=
  cmpBytes ((SocketHelper.cstr a).map tolower) ((SocketHelper.cstr b).map tolower)

/-- The C `snprintf` for a format made of strings only: the pieces are
concatenated and cut to `size - 1` bytes. -/
def snprintf (size : Nat) (pieces : List (List Nat)) : List Nat :=
  (pieces.map SocketHelper.cstr).flatten.take (size - 1)

/-- The first line of a stream, its newline included. -/
def firstLine : List Nat → List Nat
  | [] => []
  | c :: cs => if c = 10 then [10] else c :: firstLine cs

/-- The C `fgets` at the start of a stream: `none` at end of file, otherwise
at most `size - 1` bytes of the first line. -/
def fgets (size : Nat) (stream : List Nat) : Option (List Nat) :=
  if stream = [] then none else some ((firstLine stream).take (size - 1))

/-- The function `execute_uci_command`: result and, on success, the string
left in `output`. -/
def execute_uci_command (env : UciEnv) (command : List Nat) (output_size : Nat) :
    Int × Option (List Nat) :=
  match env.popen command with
  | none => (SocketHelper.GAMING_ERROR, none)
  | some stream =>
    match fgets output_size stream with
    | none => (GAMING_ERROR_NOT_FOUND, none)
    | some output =>
      let len := SocketHelper.strlen output
      let output1 :=
        if len > 0 ∧ (SocketHelper.cstr output).getLast? = some 10
        then (SocketHelper.cstr output).dropLast else SocketHelper.cstr output
      (SocketHelper.GAMING_OK, some output1)

/-- The function `config_parser_get_string`, the flag `initialized` being the
variable `config_parser_initialized` and `sect` the parameter `section`;
`buffer` tells whether the pointer is
non-null. -/
def config_parser_get_string (initialized : Bool) (env : UciEnv)
    (config_name sect option : Option (List Nat)) (buffer : Bool) (buffer_size : Nat) :
    Int × Option (List Nat) :=
  if !initialized then (GAMING_ERROR_NOT_INITIALIZED, none)
  else
    match config_name, sect, option, buffer with
    | some c, some s, some o, true =>
      let command := snprintf 256 [bytes "uci get ", c, bytes ".", s, bytes ".", o]
      execute_uci_command env command buffer_size
    | _, _, _, _ => (SocketHelper.GAMING_ERROR_INVALID_PARAM, none)

/-- The decision `config_parser_get_bool` takes on the string it read. -/
def bool_of_buffer (buffer : List Nat) : Bool :=
  decide (strcmp buffer (bytes "1") = 0) ||
  decide (strcasecmp buffer (bytes "true") = 0) ||
  decide (strcasecmp buffer (bytes "yes") = 0)

/-- The function `config_parser_get_bool`: result and the boolean stored
through `value`, if any; `value` tells whether the pointer is non-null. -/
def config_parser_get_bool (initialized : Bool) (env : UciEnv)
    (config_name sect option : Option (List Nat)) (value : Bool) : Int × Option Bool :=
  if !value then (SocketHelper.GAMING_ERROR_INVALID_PARAM, none)
  else
    match config_parser_get_string initialized env config_name sect option true 64 with
    | (result, some buffer) =>
      if result ≠ SocketHelper.GAMING_OK then (result, none)
      else (SocketHelper.GAMING_OK, some (bool_of_buffer buffer))
    | (result, none) => (result, none)

/-- The function `config_parser_set_string`: result and the command given to
`system`, if any. -/
def config_parser_set_string (initialized : Bool) (env : UciEnv)
    (config_name sect option value : Option (List Nat)) : Int × Option (List Nat) :=
  if !initialized then (GAMING_ERROR_NOT_INITIALIZED, none)
  else
    match config_name, sect, option, value with
    | some c, some s, some o, some v =>
      let command :=
        snprintf 512 [bytes "uci set ", c, bytes ".", s, bytes ".", o, bytes "=\x27", v,
          bytes "\x27"]
      let ret := env.system command
      (if ret = 0 then SocketHelper.GAMING_OK else SocketHelper.GAMING_ERROR, some command)
    | _, _, _, _ => (SocketHelper.GAMING_ERROR_INVALID_PARAM, none)

/-- The string `config_parser_set_bool` writes for a boolean. -/
def bool_value_string (value : Bool) : List Nat := if value then bytes "1" else bytes "0"

/-- The function `config_parser_set_bool`. -/
def config_parser_set_bool (initialized : Bool) (env : UciEnv)
    (config_name sect option : Option (List Nat)) (value : Bool) :
    Int × Option (List Nat) :=
  config_parser_set_string initialized env config_name sect option
    (some (bool_value_string value))

/-- A store that holds one value: `uci get` prints it followed by a newline,
and `uci set` succeeds. -/
def storeEnv (held : List Nat) : UciEnv :=
  { popen := fun _ => some (held ++ [10]), system := fun _ => 0 }

end ConfigParser

namespace SocketHelper

/-! ## Unfolding lemmas for the trace monad -/

theorem pure_apply {α : Type} (a : α) (o : Oracle) (tr : List Event) :
    (pure a : Sys α) o tr = (a, tr) := rfl

theorem bind_apply {α β : Type} (m : Sys α) (f : α → Sys β) (o : Oracle) (tr : List Event) :
    (m >>= f) o tr = f (m o tr).1 o (m o tr).2 := rfl

theorem sys_apply (c : Call) (o : Oracle) (tr : List Event) :
    sys c o tr = (o tr c, tr ++ [⟨c, o tr c⟩]) := rfl

theorem sys_ite_apply {α : Type} (c : Prop) [Decidable c] (a b : Sys α) (o : Oracle)
    (tr : List Event) : (if c then a else b) o tr = if c then a o tr else b o tr := by
  split <;> rfl

theorem run_eq {α : Type} (m : Sys α) (o : Oracle) : m.run o = m o [] := rfl


/-! ## The three ways a factory run satisfies its contract -/

/-- C1: for every port value, `socket_helper_connect_tcp` (with a non-null
host) and `socket_helper_create_tcp_server` return -1 with an empty trace if
and only if `port <= 0` or `port > 65535`; and the port is in 1..65535 if and
only if the first call made is `socket`. -/
theorem port_validation_iff (o : Oracle) (host : List Nat) (port backlog : Int) :
    ((socket_helper_connect_tcp (some host) port).run o = (-1, []) ↔ (port ≤ 0 ∨ port > 65535)) ∧
    ((socket_helper_create_tcp_server port backlog).run o = (-1, []) ↔ (port ≤ 0 ∨ port > 65535)) ∧
    ((1 ≤ port ∧ port ≤ 65535) ↔
      (((socket_helper_connect_tcp (some host) port).run o).2.head?.map Event.call
          = some (Call.socket Family.AF_INET))) ∧
    ((1 ≤ port ∧ port ≤ 65535) ↔
      (((socket_helper_create_tcp_server port backlog).run o).2.head?.map Event.call
          = some (Call.socket Family.AF_INET))) := by
  by_cases hp : port ≤ 0 ∨ port > 65535
  · have h1 : ¬ (1 ≤ port ∧ port ≤ 65535) := by omega
    simp [socket_helper_connect_tcp, socket_helper_create_tcp_server, run_eq, pure_apply, hp, h1]
  · have h1 : (1 ≤ port ∧ port ≤ 65535) := by omega
    simp only [socket_helper_connect_tcp, socket_helper_create_tcp_server,
      socket_helper_set_reuseaddr, run_eq, bind_apply, pure_apply, sys_apply, sys_ite_apply,
      hp, h1, if_false]
    refine ⟨?_, ?_, ?_, ?_⟩
    · split_ifs <;> simp
    · split_ifs <;> simp
    · split_ifs <;> simp
    · split_ifs <;> simp

/-- C3 (counterexample): after `socket_helper_close(3)`, a second
`socket_helper_close(3)` calls `close(3)` again, and `socket_helper_send` and
`socket_helper_is_readable` on the same handle make their system calls. -/
theorem closed_handle_reaches_os :
    ((socket_helper_close 3 >>= fun _ => socket_helper_close 3).run okOracle).2.map Event.call
      = [Call.close 3, Call.close 3] ∧
    ((socket_helper_close 3 >>= fun _ => socket_helper_send 3 (some 4096) 4).run okOracle).2.map
        Event.call
      = [Call.close 3, Call.send 3 (some 4096) 4 0] ∧
    ((socket_helper_close 3 >>= fun _ => socket_helper_is_readable 1024 3 0).run okOracle).2.map
        Event.call
      = [Call.close 3, Call.select 4 (some [3]) none none ⟨0, 0⟩] := by
  decide

/-- C3 (amended): on a negative handle every operation returns its error value
and leaves the trace as it was.  On a non-negative handle `socket_helper_close`
makes exactly one `close` call and does not invalidate the handle, so after it
an operation on the same value still makes its system call: a second
`socket_helper_close` and the three option setters always, `socket_helper_send`
and `socket_helper_recv` when the buffer is non-null and the length non-zero
(otherwise they return -1 without a call), `socket_helper_is_readable` and
`socket_helper_is_writable` when the value is below `FD_SETSIZE`. -/
theorem handle_validity_is_sign (o : Oracle) (tr : List Event) (fd : Int) (data : Option Nat)
    (len : Nat) (t : Int) (nb FD_SETSIZE : Nat) :
    (fd < 0 →
      socket_helper_send fd data len o tr = (-1, tr) ∧
      socket_helper_recv fd data len o tr = (-1, tr) ∧
      socket_helper_set_timeout fd t o tr = (GAMING_ERROR_INVALID_PARAM, tr) ∧
      socket_helper_set_nonblocking nb fd o tr = (GAMING_ERROR_INVALID_PARAM, tr) ∧
      socket_helper_set_reuseaddr fd o tr = (GAMING_ERROR_INVALID_PARAM, tr) ∧
      socket_helper_is_readable FD_SETSIZE fd t o tr = (some false, tr) ∧
      socket_helper_is_writable FD_SETSIZE fd t o tr = (some false, tr) ∧
      socket_helper_close fd o tr = ((), tr)) ∧
    (0 ≤ fd →
      socket_helper_close fd o tr = ((), tr ++ [⟨Call.close fd, o tr (Call.close fd)⟩]) ∧
      ((socket_helper_close fd >>= fun _ => socket_helper_close fd).run o).2.map Event.call
        = [Call.close fd, Call.close fd] ∧
      (data ≠ none → len ≠ 0 →
        ((socket_helper_close fd >>= fun _ => socket_helper_send fd data len).run o).2.map
            Event.call = [Call.close fd, Call.send fd data len 0] ∧
        ((socket_helper_close fd >>= fun _ => socket_helper_recv fd data len).run o).2.map
            Event.call = [Call.close fd, Call.recv fd data len 0]) ∧
      (data = none ∨ len = 0 →
        (socket_helper_close fd >>= fun _ => socket_helper_send fd data len).run o
          = (-1, [⟨Call.close fd, o [] (Call.close fd)⟩]) ∧
        (socket_helper_close fd >>= fun _ => socket_helper_recv fd data len).run o
          = (-1, [⟨Call.close fd, o [] (Call.close fd)⟩])) ∧
      (fd < FD_SETSIZE →
        ((socket_helper_close fd >>= fun _ => socket_helper_is_readable FD_SETSIZE fd t).run
            o).2.map Event.call
          = [Call.close fd,
             Call.select (wrap32 (fd + 1)) (some [fd]) none none (ms_timeval t)] ∧
        ((socket_helper_close fd >>= fun _ => socket_helper_is_writable FD_SETSIZE fd t).run
            o).2.map Event.call
          = [Call.close fd,
             Call.select (wrap32 (fd + 1)) none (some [fd]) none (ms_timeval t)]) ∧
      (((socket_helper_close fd >>= fun _ => socket_helper_set_timeout fd t).run o).2.map
          Event.call).take 2
        = [Call.close fd, Call.setsockopt fd SockOpt.SO_RCVTIMEO (OptVal.timeval ⟨t, 0⟩)] ∧
      (((socket_helper_close fd >>= fun _ => socket_helper_set_nonblocking nb fd).run o).2.map
          Event.call).take 2
        = [Call.close fd, Call.fcntl_getfl fd] ∧
      (((socket_helper_close fd >>= fun _ => socket_helper_set_reuseaddr fd).run o).2.map
          Event.call).take 2
        = [Call.close fd, Call.setsockopt fd SockOpt.SO_REUSEADDR (OptVal.int 1)]) := by
  constructor
  · intro h
    simp [socket_helper_send, socket_helper_recv, socket_helper_set_timeout,
      socket_helper_set_nonblocking, socket_helper_set_reuseaddr, socket_helper_is_readable,
      socket_helper_is_writable, socket_helper_close, h, not_le.mpr h, pure_apply]
  · intro h
    have h' : ¬ fd < 0 := not_lt.mpr h
    refine ⟨?_, ?_, ?_, ?_, ?_, ?_, ?_, ?_⟩
    · simp [socket_helper_close, h, bind_apply, sys_apply, pure_apply]
    · simp [socket_helper_close, h, run_eq, bind_apply, sys_apply, pure_apply]
    · intro hd hl
      simp [socket_helper_close, socket_helper_send, socket_helper_recv, h, h', hd, hl, run_eq,
        bind_apply, sys_apply, pure_apply]
    · intro hdl
      have hc : fd < 0 ∨ data = none ∨ len = 0 := Or.inr hdl
      simp [socket_helper_close, socket_helper_send, socket_helper_recv, h, hc, run_eq,
        bind_apply, sys_apply, pure_apply]
    · intro hlt
      have hin : 0 ≤ fd ∧ fd < (FD_SETSIZE : Int) := ⟨h, hlt⟩
      simp [socket_helper_close, socket_helper_is_readable, socket_helper_is_writable, FD_SET,
        FD_ZERO, h, h', hin, run_eq, bind_apply, sys_apply, pure_apply]
    · simp only [socket_helper_close, socket_helper_set_timeout, h, h', run_eq,
        bind_apply, sys_apply, pure_apply, sys_ite_apply, ge_iff_le, if_true, if_false]
      split_ifs <;> simp
    · simp only [socket_helper_close, socket_helper_set_nonblocking, h, h', run_eq,
        bind_apply, sys_apply, pure_apply, sys_ite_apply, ge_iff_le, if_true, if_false]
      split_ifs <;> simp
    · simp only [socket_helper_close, socket_helper_set_reuseaddr, h, h', run_eq,
        bind_apply, sys_apply, pure_apply, sys_ite_apply, ge_iff_le, if_true, if_false]
      split_ifs <;> simp

/-- Witness for C3 (amended): the handle -1 does nothing; on the handle 3 a
`socket_helper_close` calls `close(3)`, and after it a `socket_helper_send` of
4 bytes calls `send`, while one of 0 bytes returns -1 without a call. -/
theorem handle_validity_is_sign_witness :
    socket_helper_close (-1) okOracle [] = ((), []) ∧
    socket_helper_close 3 okOracle [] = ((), [⟨Call.close 3, okOracle [] (Call.close 3)⟩]) ∧
    ((socket_helper_close 3 >>= fun _ => socket_helper_send 3 (some 4096) 4).run okOracle).2.map
        Event.call = [Call.close 3, Call.send 3 (some 4096) 4 0] ∧
    (socket_helper_close 3 >>= fun _ => socket_helper_send 3 (some 4096) 0).run okOracle
      = (-1, [⟨Call.close 3, okOracle [] (Call.close 3)⟩]) :=
  ⟨((handle_validity_is_sign okOracle [] (-1) (some 0) 1 0 0 1024).1 (by decide)).2.2.2.2.2.2.2,
    ((handle_validity_is_sign okOracle [] 3 (some 0) 1 0 0 1024).2 (by decide)).1,
    (((handle_validity_is_sign okOracle [] 3 (some 4096) 4 0 0 1024).2 (by decide)).2.2.1
      (by decide) (by decide)).1,
    (((handle_validity_is_sign okOracle [] 3 (some 4096) 0 0 0 1024).2 (by decide)).2.2.2.1
      (Or.inr rfl)).1⟩

/-- C4 (counterexample): with the empty string as path both Unix functions go
on to `socket` and the calls after it, and return the descriptor. -/
theorem empty_path_reaches_os :
    ((socket_helper_create_unix 108 (some [])).run okOracle).1 = 3 ∧
    ((socket_helper_create_unix 108 (some [])).run okOracle).2.map Event.call
      = [Call.socket Family.AF_UNIX, Call.unlink [],
         Call.bind 3 (Sockaddr.un ⟨Family.AF_UNIX, List.replicate 108 0⟩), Call.listen 3 5] ∧
    ((socket_helper_connect_unix 108 (some [])).run okOracle).1 = 3 ∧
    ((socket_helper_connect_unix 108 (some [])).run okOracle).2.map Event.call
      = [Call.socket Family.AF_UNIX,
         Call.connect 3 (Sockaddr.un ⟨Family.AF_UNIX, List.replicate 108 0⟩)] := by
  decide

/-- C4 (amended): with a null path both Unix functions return -1 and make no
call at all; with any non-null path, the empty string included, the first call
they make is `socket`. -/
theorem unix_null_path_only (o : Oracle) (N : Nat) (p : List Nat) :
    (socket_helper_create_unix N none).run o = (-1, []) ∧
    (socket_helper_connect_unix N none).run o = (-1, []) ∧
    ((socket_helper_create_unix N (some p)).run o).2.head?.map Event.call
      = some (Call.socket Family.AF_UNIX) ∧
    ((socket_helper_connect_unix N (some p)).run o).2.head?.map Event.call
      = some (Call.socket Family.AF_UNIX) := by
  refine ⟨rfl, rfl, ?_, ?_⟩
  · simp only [socket_helper_create_unix, run_eq, bind_apply, pure_apply, sys_apply,
      sys_ite_apply]
    split_ifs <;> simp
  · simp only [socket_helper_connect_unix, run_eq, bind_apply, pure_apply, sys_apply,
      sys_ite_apply]
    split_ifs <;> simp

set_option maxRecDepth 100000 in
/-- C5 (evaluation at the failing input): for a path of 108 bytes `a` and a
`sun_path` of 108 bytes, `unlink` receives the 108-byte name while the address
bound holds only its first 107 bytes, so the file removed is not the file bound. -/
theorem unlink_name_differs_from_bound_name :
    ((socket_helper_create_unix 108 (some (List.replicate 108 97))).run okOracle).2.map Event.call
      = [Call.socket Family.AF_UNIX, Call.unlink (List.replicate 108 97),
         Call.bind 3 (Sockaddr.un ⟨Family.AF_UNIX, List.replicate 107 97 ++ [0]⟩),
         Call.listen 3 5] ∧
    cstr (List.replicate 107 97 ++ [0]) ≠ List.replicate 108 97 := by
  decide


/-! ## The Unix address and the listen backlog -/

theorem cstr_take (p : List Nat) (k : Nat) (hk : k ≤ strlen p) : (cstr p).take k = p.take k := by
  have h : cstr p = p.take (strlen p) := List.prefix_iff_eq_take.mp (List.takeWhile_prefix _)
  rw [h, List.take_take, Nat.min_eq_left hk]

theorem cstr_append_zeros (l : List Nat) (m : Nat) (hl : ∀ c ∈ l, c ≠ 0) (hm : 0 < m) :
    cstr (l ++ List.replicate m 0) = l := by
  unfold cstr
  rw [List.takeWhile_append_of_pos (by simpa using hl)]
  obtain ⟨k, rfl⟩ : ∃ k, m = k + 1 := ⟨m - 1, by omega⟩
  simp [List.replicate_succ]

theorem sun_path_eq (N : Nat) (p : List Nat) (hN : 0 < N) :
    (unix_addr N p).sun_path
      = p.take (min (strlen p) (N - 1)) ++ List.replicate (N - min (strlen p) (N - 1)) 0 := by
  have h1 : (cstr p).take (N - 1) = p.take (min (strlen p) (N - 1)) := by
    rw [← cstr_take p _ (Nat.min_le_left _ _)]
    by_cases h : strlen p ≤ N - 1
    · rw [Nat.min_eq_left h, List.take_of_length_le h]
      exact (List.take_of_length_le (le_refl _)).symm
    · rw [Nat.min_eq_right (by omega)]
  have h2 : (p.take (min (strlen p) (N - 1))).length = min (strlen p) (N - 1) := by
    rw [← cstr_take p _ (Nat.min_le_left _ _), List.length_take]
    unfold strlen
    omega
  simp only [unix_addr, strncpy, memset, h1, h2, List.drop_replicate, List.append_assoc,
    List.append_replicate_replicate]
  congr 2
  omega

/-- C6: for every non-null path and a `sun_path` field of `N > 0` bytes, the
only address `socket_helper_create_unix` binds and `socket_helper_connect_unix`
connects to, once `socket` has succeeded, is `unix_addr N path`; its `sun_path`
has `N` bytes, the first `min (strlen path) (N - 1)` bytes of `path` followed by
zeros, at least one of them; a path that fits is the name unchanged and a
longer one is cut to its first `N - 1` bytes. -/
theorem unix_sun_path (o : Oracle) (N : Nat) (path : List Nat) (hN : 0 < N)
    (hsock : 0 ≤ (o [] (Call.socket Family.AF_UNIX)).ret) :
    boundOrConnected ((socket_helper_create_unix N (some path)).run o).2
      = [Sockaddr.un (unix_addr N path)] ∧
    boundOrConnected ((socket_helper_connect_unix N (some path)).run o).2
      = [Sockaddr.un (unix_addr N path)] ∧
    (unix_addr N path).sun_path
      = path.take (min (strlen path) (N - 1))
          ++ List.replicate (N - min (strlen path) (N - 1)) 0 ∧
    0 < N - min (strlen path) (N - 1) ∧
    (unix_addr N path).sun_path.length = N ∧
    (strlen path ≤ N - 1 → cstr (unix_addr N path).sun_path = cstr path) ∧
    (N - 1 < strlen path → cstr (unix_addr N path).sun_path = (cstr path).take (N - 1)) := by
  have hs : ¬ (o [] (Call.socket Family.AF_UNIX)).ret < 0 := not_lt.mpr hsock
  have hk : min (strlen path) (N - 1) ≤ strlen path := Nat.min_le_left _ _
  have hnz : ∀ c ∈ path.take (min (strlen path) (N - 1)), c ≠ 0 := by
    intro c hc
    rw [← cstr_take path _ hk] at hc
    have := List.mem_takeWhile_imp (List.mem_of_mem_take hc)
    simpa using this
  have hpos : 0 < N - min (strlen path) (N - 1) := by omega
  refine ⟨?_, ?_, sun_path_eq N path hN, hpos, ?_, ?_, ?_⟩
  · simp only [socket_helper_create_unix, run_eq, bind_apply, pure_apply, sys_apply,
      sys_ite_apply, hs, if_false]
    split_ifs <;> simp [boundOrConnected]
  · simp only [socket_helper_connect_unix, run_eq, bind_apply, pure_apply, sys_apply,
      sys_ite_apply, hs, if_false]
    split_ifs <;> simp [boundOrConnected]
  · rw [sun_path_eq N path hN, List.length_append, List.length_replicate,
      ← cstr_take path _ hk, List.length_take]
    unfold strlen
    omega
  · intro hfit
    rw [sun_path_eq N path hN, cstr_append_zeros _ _ hnz hpos, Nat.min_eq_left hfit,
      ← cstr_take path _ (le_refl _)]
    exact List.take_of_length_le (le_refl _)
  · intro hlong
    rw [sun_path_eq N path hN, cstr_append_zeros _ _ hnz hpos, Nat.min_eq_right (by omega),
      cstr_take path _ (by omega)]

/-- Witness for C6: the path `/tmp/a.sock` in a field of 8 bytes is cut to
`/tmp/a.`, under an oracle where every call succeeds. -/
theorem unix_sun_path_witness :
    (unix_addr 8 [47, 116, 109, 112, 47, 97, 46, 115, 111, 99, 107]).sun_path
      = [47, 116, 109, 112, 47, 97, 46, 0] ∧
    boundOrConnected
        ((socket_helper_create_unix 8 (some [47, 116, 109, 112, 47, 97, 46, 115, 111, 99, 107])).run
          okOracle).2
      = [Sockaddr.un (unix_addr 8 [47, 116, 109, 112, 47, 97, 46, 115, 111, 99, 107])] :=
  ⟨by decide,
    (unix_sun_path okOracle 8 [47, 116, 109, 112, 47, 97, 46, 115, 111, 99, 107] (by decide)
      (by decide)).1⟩

/-- C7: for every valid port and every backlog, the `listen` calls of
`socket_helper_create_tcp_server` are none when no `bind` succeeded and
otherwise exactly one, with backlog `backlog` when `backlog > 0` and 5 when
`backlog <= 0`; those of `socket_helper_create_unix` are none or exactly one
with backlog 5. -/
theorem listen_backlog (o : Oracle) (N : Nat) (path : List Nat) (port backlog : Int)
    (hport : 1 ≤ port ∧ port ≤ 65535) :
    listenBacklogs ((socket_helper_create_tcp_server port backlog).run o).2
      = (if bindSucceeded ((socket_helper_create_tcp_server port backlog).run o).2
          then [if backlog > 0 then backlog else 5] else []) ∧
    listenBacklogs ((socket_helper_create_unix N (some path)).run o).2
      = (if bindSucceeded ((socket_helper_create_unix N (some path)).run o).2
          then [5] else []) := by
  have hp : ¬ (port ≤ 0 ∨ port > 65535) := by omega
  constructor
  · have key : ∀ lb : Int, lb = (if backlog > 0 then backlog else 5) →
        listenBacklogs ((socket_helper_create_tcp_server port backlog).run o).2
          = (if bindSucceeded ((socket_helper_create_tcp_server port backlog).run o).2
              then [lb] else []) := by
      intro lb hlb
      suffices h : (fun tr => listenBacklogs tr = if bindSucceeded tr then [lb] else [])
          ((socket_helper_create_tcp_server port backlog).run o).2 from h
      generalize hP : (fun tr => listenBacklogs tr = if bindSucceeded tr then [lb] else []) = P
      simp only [socket_helper_create_tcp_server, socket_helper_set_reuseaddr, run_eq,
        bind_apply, pure_apply, sys_apply, sys_ite_apply, hp, if_false, SOCKET_DEFAULT_BACKLOG,
        List.nil_append, List.cons_append, List.singleton_append]
      rw [← hlb]
      split_ifs
      all_goals try simp only [List.nil_append, List.cons_append, List.singleton_append] at *
      all_goals subst hP
      all_goals simp [listenBacklogs, bindSucceeded]
      all_goals first | omega | (rw [if_pos (by omega)])
    exact key _ rfl
  · suffices h : (fun tr => listenBacklogs tr = if bindSucceeded tr then [5] else [])
        ((socket_helper_create_unix N (some path)).run o).2 from h
    generalize hP : (fun tr => listenBacklogs tr = if bindSucceeded tr then [5] else []) = P
    simp only [socket_helper_create_unix, run_eq, bind_apply,
      pure_apply, sys_apply, sys_ite_apply, SOCKET_DEFAULT_BACKLOG,
      List.nil_append, List.cons_append, List.singleton_append]
    split_ifs
    all_goals try simp only [List.nil_append, List.cons_append, List.singleton_append] at *
    all_goals subst hP
    all_goals simp [listenBacklogs, bindSucceeded]
    all_goals first | omega | (rw [if_pos (by omega)])

/-- Witness for C7: with every call succeeding, port 8080 listens with backlog
16 when asked for 16, and the Unix listener with backlog 5. -/
theorem listen_backlog_witness :
    (1 ≤ (8080 : Int) ∧ (8080 : Int) ≤ 65535) ∧
    listenBacklogs ((socket_helper_create_tcp_server 8080 16).run okOracle).2 = [16] ∧
    listenBacklogs ((socket_helper_create_unix 108 (some [47, 116])).run okOracle).2 = [5] :=
  ⟨by decide, listen_backlog okOracle 108 [47, 116] 8080 16 (by decide)⟩


/-! ## Readiness polling and timeouts -/

theorem wrap32_of_range (x : Int) (h1 : -2147483648 ≤ x) (h2 : x ≤ 2147483647) : wrap32 x = x := by
  unfold wrap32
  omega

theorem ms_timeval_eq (t : Int) (ht : 0 ≤ t) :
    ms_timeval t = { tv_sec := t / 1000, tv_usec := (t % 1000) * 1000 } := by
  have h1 : Int.tdiv t 1000 = t / 1000 := Int.tdiv_eq_ediv ht (by decide)
  have h2 : Int.tmod t 1000 = t % 1000 := Int.tmod_eq_emod ht (by decide)
  have h3 : wrap32 (t % 1000 * 1000) = t % 1000 * 1000 := by
    apply wrap32_of_range <;> omega
  simp only [ms_timeval, h1, h2, h3]

theorem is_readable_run (o : Oracle) (FD_SETSIZE : Nat) (sockfd timeout_ms : Int)
    (hfd : 0 ≤ sockfd) (hlt : sockfd < FD_SETSIZE) :
    (socket_helper_is_readable FD_SETSIZE sockfd timeout_ms).run o
      = (some (decide ((o [] (Call.select (wrap32 (sockfd + 1)) (some [sockfd]) none none
            (ms_timeval timeout_ms))).ret > 0)
          && FD_ISSET sockfd (o [] (Call.select (wrap32 (sockfd + 1)) (some [sockfd]) none none
            (ms_timeval timeout_ms))).fdset),
        [⟨Call.select (wrap32 (sockfd + 1)) (some [sockfd]) none none (ms_timeval timeout_ms),
          o [] (Call.select (wrap32 (sockfd + 1)) (some [sockfd]) none none
            (ms_timeval timeout_ms))⟩]) := by
  have hs : ¬ sockfd < 0 := not_lt.mpr hfd
  have hin : 0 ≤ sockfd ∧ sockfd < (FD_SETSIZE : Int) := ⟨hfd, hlt⟩
  simp only [socket_helper_is_readable, FD_SET, FD_ZERO, hs, hin, and_self, if_false, if_true,
    run_eq, bind_apply, sys_apply, pure_apply, List.nil_append]

theorem is_writable_run (o : Oracle) (FD_SETSIZE : Nat) (sockfd timeout_ms : Int)
    (hfd : 0 ≤ sockfd) (hlt : sockfd < FD_SETSIZE) :
    (socket_helper_is_writable FD_SETSIZE sockfd timeout_ms).run o
      = (some (decide ((o [] (Call.select (wrap32 (sockfd + 1)) none (some [sockfd]) none
            (ms_timeval timeout_ms))).ret > 0)
          && FD_ISSET sockfd (o [] (Call.select (wrap32 (sockfd + 1)) none (some [sockfd]) none
            (ms_timeval timeout_ms))).fdset),
        [⟨Call.select (wrap32 (sockfd + 1)) none (some [sockfd]) none (ms_timeval timeout_ms),
          o [] (Call.select (wrap32 (sockfd + 1)) none (some [sockfd]) none
            (ms_timeval timeout_ms))⟩]) := by
  have hs : ¬ sockfd < 0 := not_lt.mpr hfd
  have hin : 0 ≤ sockfd ∧ sockfd < (FD_SETSIZE : Int) := ⟨hfd, hlt⟩
  simp only [socket_helper_is_writable, FD_SET, FD_ZERO, hs, hin, and_self, if_false, if_true,
    run_eq, bind_apply, sys_apply, pure_apply, List.nil_append]

/-- C8 (counterexample): with an `fd_set` of 1024 bits and the descriptor 1024,
`FD_SET` is outside the set: the behaviour of both readiness functions is
undefined and no `select` with any timeval is reached. -/
theorem readiness_timeval_undefined_beyond_set :
    (socket_helper_is_readable 1024 1024 1500).run okOracle = (none, []) ∧
    (socket_helper_is_writable 1024 1024 1500).run okOracle = (none, []) := by
  decide

/-- C8 (amended): for every `timeout_ms >= 0` and every descriptor with
`0 <= sockfd < FD_SETSIZE`, the single call of `socket_helper_is_readable` and
of `socket_helper_is_writable` is a `select` whose timeval has
`tv_sec = timeout_ms / 1000` and `tv_usec = (timeout_ms mod 1000) * 1000`; then
`0 <= tv_usec < 1000000`, `tv_sec * 1000000 + tv_usec = timeout_ms * 1000`, and
the product computed in `int` lies within the 32-bit range, so wrapping leaves
it unchanged. -/
theorem readiness_timeval (o : Oracle) (FD_SETSIZE : Nat) (sockfd timeout_ms : Int)
    (hfd : 0 ≤ sockfd) (hlt : sockfd < FD_SETSIZE) (ht : 0 ≤ timeout_ms) :
    ((socket_helper_is_readable FD_SETSIZE sockfd timeout_ms).run o).2.map Event.call
      = [Call.select (wrap32 (sockfd + 1)) (some [sockfd]) none none
          { tv_sec := timeout_ms / 1000, tv_usec := (timeout_ms % 1000) * 1000 }] ∧
    ((socket_helper_is_writable FD_SETSIZE sockfd timeout_ms).run o).2.map Event.call
      = [Call.select (wrap32 (sockfd + 1)) none (some [sockfd]) none
          { tv_sec := timeout_ms / 1000, tv_usec := (timeout_ms % 1000) * 1000 }] ∧
    (ms_timeval timeout_ms).tv_sec = timeout_ms / 1000 ∧
    (ms_timeval timeout_ms).tv_usec = (timeout_ms % 1000) * 1000 ∧
    0 ≤ (ms_timeval timeout_ms).tv_usec ∧
    (ms_timeval timeout_ms).tv_usec < 1000000 ∧
    (ms_timeval timeout_ms).tv_sec * 1000000 + (ms_timeval timeout_ms).tv_usec
      = timeout_ms * 1000 ∧
    -2147483648 ≤ Int.tmod timeout_ms 1000 * 1000 ∧
    Int.tmod timeout_ms 1000 * 1000 ≤ 2147483647 ∧
    wrap32 (Int.tmod timeout_ms 1000 * 1000) = Int.tmod timeout_ms 1000 * 1000 := by
  have h2 : Int.tmod timeout_ms 1000 = timeout_ms % 1000 := Int.tmod_eq_emod ht (by decide)
  have he := ms_timeval_eq timeout_ms ht
  refine ⟨?_, ?_, ?_, ?_, ?_, ?_, ?_, ?_, ?_, ?_⟩
  · rw [is_readable_run o FD_SETSIZE sockfd timeout_ms hfd hlt, he]
    rfl
  · rw [is_writable_run o FD_SETSIZE sockfd timeout_ms hfd hlt, he]
    rfl
  · rw [he]
  · rw [he]
  · rw [he]; show 0 ≤ timeout_ms % 1000 * 1000; omega
  · rw [he]; show timeout_ms % 1000 * 1000 < 1000000; omega
  · rw [he]; show timeout_ms / 1000 * 1000000 + timeout_ms % 1000 * 1000 = timeout_ms * 1000
    omega
  · rw [h2]; omega
  · rw [h2]; omega
  · rw [h2]; apply wrap32_of_range <;> omega

/-- Witness for C8 (amended): 1500 ms on descriptor 3, in a set of 1024 bits,
is 1 s and 500000 us. -/
theorem readiness_timeval_witness :
    ((socket_helper_is_readable 1024 3 1500).run okOracle).2.map Event.call
      = [Call.select (wrap32 (3 + 1)) (some [3]) none none
          { tv_sec := 1500 / 1000, tv_usec := (1500 % 1000) * 1000 }] ∧
    (ms_timeval 1500).tv_usec < 1000000 :=
  ⟨(readiness_timeval okOracle 1024 3 1500 (by decide) (by decide) (by decide)).1,
    (readiness_timeval okOracle 1024 3 1500 (by decide) (by decide) (by decide)).2.2.2.2.2.1⟩

end SocketHelper

namespace SocketHelper

/-! ## Non-blocking mode, transfer and invalid handles -/

theorem kernelFlags_append (f0 : Nat) (fd : Int) (a b : List Event) :
    kernelFlags f0 fd (a ++ b) = kernelFlags (kernelFlags f0 fd a) fd b := by
  induction a generalizing f0 with
  | nil => rfl
  | cons e rest ih =>
    rw [List.cons_append]
    cases e with
    | mk c rep =>
      cases c <;> simp only [kernelFlags] <;> (try split_ifs) <;> exact ih _

/-- C11: for every `sockfd >= 0`, every flag bit `O_NONBLOCK` and every
environment in which `F_GETFL` reports the flags the kernel holds (`f` at the
start): a call of `socket_helper_set_nonblocking` that returns `GAMING_OK`
leaves the flags `f | O_NONBLOCK`; each bit of `f` is still set and each bit
set is a bit of `f` or of `O_NONBLOCK`; and after a second call that returns
`GAMING_OK` the flags are still `f | O_NONBLOCK`. -/
theorem set_nonblocking_idempotent (o : Oracle) (O_NONBLOCK f : Nat) (sockfd : Int)
    (hfd : 0 ≤ sockfd) (hco : FlagsCoherent o f sockfd) :
    (((socket_helper_set_nonblocking O_NONBLOCK sockfd).run o).1 = GAMING_OK →
      kernelFlags f sockfd ((socket_helper_set_nonblocking O_NONBLOCK sockfd).run o).2
        = f ||| O_NONBLOCK) ∧
    (∀ i, f.testBit i = true → (f ||| O_NONBLOCK).testBit i = true) ∧
    (∀ i, (f ||| O_NONBLOCK).testBit i = true → f.testBit i = true ∨ O_NONBLOCK.testBit i = true) ∧
    (((socket_helper_set_nonblocking O_NONBLOCK sockfd >>= fun a =>
        socket_helper_set_nonblocking O_NONBLOCK sockfd >>= fun b => pure (a, b)).run o).1
          = (GAMING_OK, GAMING_OK) →
      kernelFlags f sockfd
          ((socket_helper_set_nonblocking O_NONBLOCK sockfd >>= fun a =>
            socket_helper_set_nonblocking O_NONBLOCK sockfd >>= fun b => pure (a, b)).run o).2
        = f ||| O_NONBLOCK) := by
  have hs : ¬ sockfd < 0 := not_lt.mpr hfd
  have h0 : (o [] (Call.fcntl_getfl sockfd)).ret = (f : Int) := by
    simpa [kernelFlags] using hco []
  have step : ∀ (tr : List Event),
      (socket_helper_set_nonblocking O_NONBLOCK sockfd o tr).1 = GAMING_OK →
      kernelFlags f sockfd (socket_helper_set_nonblocking O_NONBLOCK sockfd o tr).2
        = kernelFlags f sockfd tr ||| O_NONBLOCK := by
    intro tr
    have hg := hco tr
    have hnn : ¬ ((kernelFlags f sockfd tr : Nat) : Int) < 0 := by omega
    simp only [socket_helper_set_nonblocking, hs, if_false, bind_apply, sys_apply, pure_apply,
      sys_ite_apply, hg, hnn, Int.toNat_ofNat]
    split_ifs with h2
    · intro h; simp [GAMING_OK, GAMING_ERROR] at h
    · intro _
      have h2' : 0 ≤ (o (tr ++ [⟨Call.fcntl_getfl sockfd, o tr (Call.fcntl_getfl sockfd)⟩])
          (Call.fcntl_setfl sockfd (kernelFlags f sockfd tr ||| O_NONBLOCK))).ret :=
        not_lt.mp h2
      simp [kernelFlags_append, kernelFlags, h2']
  refine ⟨?_, ?_, ?_, ?_⟩
  · intro h
    have := step [] h
    simpa [kernelFlags] using this
  · intro i hi
    simp [Nat.testBit_lor, hi]
  · intro i hi
    simpa [Nat.testBit_lor] using hi
  · intro h
    simp only [run_eq, bind_apply, pure_apply] at h ⊢
    have h1 := (Prod.mk.inj h).1
    have h2 := (Prod.mk.inj h).2
    rw [step _ h2, step [] h1]
    simp [kernelFlags, Nat.lor_assoc]

/-- Witness for C11: descriptor 3 with flags 2 and `O_NONBLOCK = 2048`, in the
environment where `F_GETFL` reports the flags last set. -/
theorem set_nonblocking_idempotent_witness :
    kernelFlags 2 3 ((socket_helper_set_nonblocking 2048 3).run (flagsOracle 2)).2 = 2 ||| 2048 ∧
    kernelFlags 2 3
        ((socket_helper_set_nonblocking 2048 3 >>= fun a =>
          socket_helper_set_nonblocking 2048 3 >>= fun b => pure (a, b)).run (flagsOracle 2)).2
      = 2 ||| 2048 :=
  ⟨(set_nonblocking_idempotent (flagsOracle 2) 2048 2 3 (by decide) (fun _ => rfl)).1 (by decide),
    (set_nonblocking_idempotent (flagsOracle 2) 2048 2 3 (by decide) (fun _ => rfl)).2.2.2
      (by decide)⟩

/-- C12: for every `sockfd >= 0`, non-null buffer and `len > 0`, the trace of
`socket_helper_send` is the one call `send(sockfd, data, len, 0)` and that of
`socket_helper_recv` the one call `recv(sockfd, buffer, len, 0)`, and the
result is the reply of that call unchanged, whatever it is: a short count, 0
or a negative value. -/
theorem transfer_passthrough (o : Oracle) (sockfd : Int) (buf : Nat) (len : Nat)
    (hfd : 0 ≤ sockfd) (hlen : 0 < len) :
    (socket_helper_send sockfd (some buf) len).run o
      = ((o [] (Call.send sockfd (some buf) len 0)).ret,
          [⟨Call.send sockfd (some buf) len 0, o [] (Call.send sockfd (some buf) len 0)⟩]) ∧
    (socket_helper_recv sockfd (some buf) len).run o
      = ((o [] (Call.recv sockfd (some buf) len 0)).ret,
          [⟨Call.recv sockfd (some buf) len 0, o [] (Call.recv sockfd (some buf) len 0)⟩]) := by
  have hs : ¬ sockfd < 0 := not_lt.mpr hfd
  have hl : len ≠ 0 := by omega
  simp [socket_helper_send, socket_helper_recv, hs, hl, run_eq, bind_apply, sys_apply,
    pure_apply]

/-- Witness for C12: when `recv` on descriptor 3 replies 0 the result is 0, and
the short count 2 of a `send` of 10 bytes is returned as 2. -/
theorem transfer_passthrough_witness :
    (socket_helper_recv 3 (some 4096) 10).run okOracle
      = (0, [⟨Call.recv 3 (some 4096) 10 0, ⟨0, [], []⟩⟩]) ∧
    (socket_helper_send 3 (some 4096) 10).run (fun _ _ => ⟨2, [], []⟩)
      = (2, [⟨Call.send 3 (some 4096) 10 0, ⟨2, [], []⟩⟩]) :=
  ⟨(transfer_passthrough okOracle 3 4096 10 (by decide) (by decide)).2,
    (transfer_passthrough (fun _ _ => ⟨2, [], []⟩) 3 4096 10 (by decide) (by decide)).1⟩

/-- C13: for every `sockfd < 0`, whatever the other arguments, the
environment and the history, no operation makes a call: `socket_helper_close`
does nothing, the three option setters return `GAMING_ERROR_INVALID_PARAM`,
`socket_helper_send` and `socket_helper_recv` return -1, and
`socket_helper_is_readable` and `socket_helper_is_writable` return false. -/
theorem invalid_handle_no_call (o : Oracle) (tr : List Event) (sockfd : Int)
    (data buffer : Option Nat) (len : Nat) (timeout_sec timeout_ms : Int)
    (O_NONBLOCK FD_SETSIZE : Nat)
    (hfd : sockfd < 0) :
    socket_helper_close sockfd o tr = ((), tr) ∧
    socket_helper_set_timeout sockfd timeout_sec o tr = (GAMING_ERROR_INVALID_PARAM, tr) ∧
    socket_helper_set_nonblocking O_NONBLOCK sockfd o tr = (GAMING_ERROR_INVALID_PARAM, tr) ∧
    socket_helper_set_reuseaddr sockfd o tr = (GAMING_ERROR_INVALID_PARAM, tr) ∧
    socket_helper_send sockfd data len o tr = (-1, tr) ∧
    socket_helper_recv sockfd buffer len o tr = (-1, tr) ∧
    socket_helper_is_readable FD_SETSIZE sockfd timeout_ms o tr = (some false, tr) ∧
    socket_helper_is_writable FD_SETSIZE sockfd timeout_ms o tr = (some false, tr) := by
  have hge : ¬ sockfd ≥ 0 := not_le.mpr hfd
  refine ⟨?_, ?_, ?_, ?_, ?_, ?_, ?_, ?_⟩
  · simp only [socket_helper_close, hge, if_false, pure_apply]
  · simp only [socket_helper_set_timeout, hfd, if_true, pure_apply]
  · simp only [socket_helper_set_nonblocking, hfd, if_true, pure_apply]
  · simp only [socket_helper_set_reuseaddr, hfd, if_true, pure_apply]
  · simp only [socket_helper_send, hfd, true_or, if_true, pure_apply]
  · simp only [socket_helper_recv, hfd, true_or, if_true, pure_apply]
  · simp only [socket_helper_is_readable, hfd, if_true, pure_apply]
  · simp only [socket_helper_is_writable, hfd, if_true, pure_apply]

/-- Witness for C13: the handle -1 after one earlier call. -/
theorem invalid_handle_no_call_witness :
    socket_helper_close (-1) okOracle [⟨Call.close 3, ⟨0, [], []⟩⟩]
      = ((), [⟨Call.close 3, ⟨0, [], []⟩⟩]) ∧
    socket_helper_send (-1) (some 4096) 10 okOracle [⟨Call.close 3, ⟨0, [], []⟩⟩]
      = (-1, [⟨Call.close 3, ⟨0, [], []⟩⟩]) :=
  ⟨(invalid_handle_no_call okOracle [⟨Call.close 3, ⟨0, [], []⟩⟩] (-1) (some 4096) (some 4096)
      10 5 100 2048 1024 (by decide)).1,
    (invalid_handle_no_call okOracle [⟨Call.close 3, ⟨0, [], []⟩⟩] (-1) (some 4096) (some 4096)
      10 5 100 2048 1024 (by decide)).2.2.2.2.1⟩

end SocketHelper

namespace SocketHelper

/-! ## Order of the calls of the TCP listener -/

theorem htons_bytes (port : Int) (hport : 1 ≤ port ∧ port ≤ 65535) :
    htons port = [port.toNat / 256, port.toNat % 256] := by
  have h : port % 65536 = port := Int.emod_eq_of_lt (by omega) (by omega)
  simp [htons, h]

/-- C17: for every valid port, once `socket` succeeded with descriptor `fd`, the
calls of `socket_helper_create_tcp_server` that reach the operating system are
`socket`, `setsockopt(fd, SO_REUSEADDR, 1)`, `bind` of the address
`(AF_INET, INADDR_ANY, htons port)`, then `listen` if `bind` succeeded, then
`close` if a step failed; the port bytes are the high byte then the low byte;
the result is -1 if `bind` or `listen` failed and `fd` otherwise, and two
environments that differ only in the reply to `setsockopt` give the same
result. -/
theorem tcp_server_call_order (o : Oracle) (f : Call → Reply) (r1 r2 : Reply)
    (port backlog : Int) (hport : 1 ≤ port ∧ port ≤ 65535)
    (hsock : 0 ≤ (o [] (Call.socket Family.AF_INET)).ret) :
    sysCalls ((socket_helper_create_tcp_server port backlog).run o).2
      = [Call.socket Family.AF_INET,
         Call.setsockopt (o [] (Call.socket Family.AF_INET)).ret SockOpt.SO_REUSEADDR (OptVal.int 1),
         Call.bind (o [] (Call.socket Family.AF_INET)).ret
           (Sockaddr.inet
             { sin_family := Family.AF_INET, sin_port := htons port, s_addr := INADDR_ANY })]
        ++ (if bindSucceeded ((socket_helper_create_tcp_server port backlog).run o).2
            then [Call.listen (o [] (Call.socket Family.AF_INET)).ret
                    (if backlog > 0 then backlog else 5)]
            else [])
        ++ (if ((socket_helper_create_tcp_server port backlog).run o).2.any Event.stepFailed
            then [Call.close (o [] (Call.socket Family.AF_INET)).ret]
            else []) ∧
    htons port = [port.toNat / 256, port.toNat % 256] ∧
    ((port.toNat / 256 : Nat) : Int) * 256 + ((port.toNat % 256 : Nat) : Int) = port ∧
    INADDR_ANY = [0, 0, 0, 0] ∧
    ((socket_helper_create_tcp_server port backlog).run o).1
      = (if ((socket_helper_create_tcp_server port backlog).run o).2.any Event.stepFailed
          then -1 else (o [] (Call.socket Family.AF_INET)).ret) ∧
    ((socket_helper_create_tcp_server port backlog).run (withSetsockoptReply f r1)).1
      = ((socket_helper_create_tcp_server port backlog).run (withSetsockoptReply f r2)).1 := by
  have hp : ¬ (port ≤ 0 ∨ port > 65535) := by omega
  have hs : ¬ (o [] (Call.socket Family.AF_INET)).ret < 0 := not_lt.mpr hsock
  refine ⟨?_, htons_bytes port hport, by omega, rfl, ?_, ?_⟩
  · have key : ∀ lb : Int, lb = (if backlog > 0 then backlog else 5) →
        sysCalls ((socket_helper_create_tcp_server port backlog).run o).2
          = [Call.socket Family.AF_INET,
             Call.setsockopt (o [] (Call.socket Family.AF_INET)).ret SockOpt.SO_REUSEADDR
               (OptVal.int 1),
             Call.bind (o [] (Call.socket Family.AF_INET)).ret
               (Sockaddr.inet
                 { sin_family := Family.AF_INET, sin_port := htons port, s_addr := INADDR_ANY })]
            ++ (if bindSucceeded ((socket_helper_create_tcp_server port backlog).run o).2
                then [Call.listen (o [] (Call.socket Family.AF_INET)).ret lb] else [])
            ++ (if ((socket_helper_create_tcp_server port backlog).run o).2.any Event.stepFailed
                then [Call.close (o [] (Call.socket Family.AF_INET)).ret] else []) := by
      intro lb hlb
      suffices h : (fun tr => sysCalls tr
          = [Call.socket Family.AF_INET,
             Call.setsockopt (o [] (Call.socket Family.AF_INET)).ret SockOpt.SO_REUSEADDR
               (OptVal.int 1),
             Call.bind (o [] (Call.socket Family.AF_INET)).ret
               (Sockaddr.inet
                 { sin_family := Family.AF_INET, sin_port := htons port, s_addr := INADDR_ANY })]
            ++ (if bindSucceeded tr
                then [Call.listen (o [] (Call.socket Family.AF_INET)).ret lb] else [])
            ++ (if tr.any Event.stepFailed
                then [Call.close (o [] (Call.socket Family.AF_INET)).ret] else []))
          ((socket_helper_create_tcp_server port backlog).run o).2 from h
      generalize hP : (fun tr => sysCalls tr
          = [Call.socket Family.AF_INET,
             Call.setsockopt (o [] (Call.socket Family.AF_INET)).ret SockOpt.SO_REUSEADDR
               (OptVal.int 1),
             Call.bind (o [] (Call.socket Family.AF_INET)).ret
               (Sockaddr.inet
                 { sin_family := Family.AF_INET, sin_port := htons port, s_addr := INADDR_ANY })]
            ++ (if bindSucceeded tr
                then [Call.listen (o [] (Call.socket Family.AF_INET)).ret lb] else [])
            ++ (if tr.any Event.stepFailed
                then [Call.close (o [] (Call.socket Family.AF_INET)).ret] else [])) = P
      simp only [socket_helper_create_tcp_server, socket_helper_set_reuseaddr, run_eq,
        bind_apply, pure_apply, sys_apply, sys_ite_apply, hp, hs, if_false,
        SOCKET_DEFAULT_BACKLOG, List.nil_append, List.cons_append, List.singleton_append]
      rw [← hlb]
      split_ifs
      all_goals try simp only [List.nil_append, List.cons_append, List.singleton_append] at *
      all_goals subst hP
      all_goals clear hlb
      all_goals simp only [sysCalls, bindSucceeded, Event.stepFailed, List.map_cons,
        List.map_nil, List.filter_cons, List.filter_nil, List.any_cons, List.any_nil,
        Bool.or_false, Bool.false_or, Bool.or_eq_true, decide_eq_true_eq, if_true,
        Bool.false_eq_true, if_false, List.cons_append, List.nil_append]
      all_goals split_ifs
      all_goals first | rfl | omega
    exact key _ rfl
  · suffices h : (fun r : Int × List Event =>
        r.1 = if r.2.any Event.stepFailed then -1 else (o [] (Call.socket Family.AF_INET)).ret)
        ((socket_helper_create_tcp_server port backlog).run o) from h
    generalize hP : (fun r : Int × List Event =>
        r.1 = if r.2.any Event.stepFailed then -1 else (o [] (Call.socket Family.AF_INET)).ret)
        = P
    simp only [socket_helper_create_tcp_server, socket_helper_set_reuseaddr, run_eq,
      bind_apply, pure_apply, sys_apply, sys_ite_apply, hp, hs, if_false,
      SOCKET_DEFAULT_BACKLOG, List.nil_append, List.cons_append, List.singleton_append]
    generalize (if backlog > 0 then backlog else 5) = lb
    split_ifs
    all_goals try simp only [List.nil_append, List.cons_append, List.singleton_append] at *
    all_goals subst hP
    all_goals simp only [Event.stepFailed, List.any_cons, List.any_nil,
      Bool.or_false, Bool.false_or, Bool.or_eq_true, decide_eq_true_eq]
    all_goals split_ifs
    all_goals first | rfl | omega
  · simp only [socket_helper_create_tcp_server, socket_helper_set_reuseaddr, run_eq,
      bind_apply, pure_apply, sys_apply, sys_ite_apply, hp, if_false, withSetsockoptReply]
    split_ifs <;> rfl

/-- Witness for C17: port 8080 with backlog 16; every call succeeds in one
environment, and in the other only `setsockopt` fails: the result is 3 in both. -/
theorem tcp_server_call_order_witness :
    sysCalls ((socket_helper_create_tcp_server 8080 16).run okOracle).2
      = [Call.socket Family.AF_INET, Call.setsockopt 3 SockOpt.SO_REUSEADDR (OptVal.int 1),
         Call.bind 3 (Sockaddr.inet ⟨Family.AF_INET, [31, 144], [0, 0, 0, 0]⟩),
         Call.listen 3 16] ∧
    ((socket_helper_create_tcp_server 8080 16).run (withSetsockoptReply (okOracle []) ⟨0, [], []⟩)).1
      = ((socket_helper_create_tcp_server 8080 16).run
          (withSetsockoptReply (okOracle []) ⟨-1, [], []⟩)).1 :=
  ⟨(tcp_server_call_order okOracle (okOracle []) ⟨0, [], []⟩ ⟨-1, [], []⟩ 8080 16 (by decide)
      (by decide)).1,
    (tcp_server_call_order okOracle (okOracle []) ⟨0, [], []⟩ ⟨-1, [], []⟩ 8080 16 (by decide)
      (by decide)).2.2.2.2.2⟩

end SocketHelper

namespace Logger

/-! ## Claims about the logger -/

/-- C14 (evaluation at the failing input): `logger_init` returns
`GAMING_ERROR_INVALID_PARAM`, changes no variable and makes no call, for every
identifier, level and target; so with `LOG_LEVEL_INFO` and `LOG_TARGET_CONSOLE`
the result is -2 and the logger stays uninitialised. -/
theorem logger_init_rejects_all (ident : Option (List Nat)) (level target : Int)
    (s : LoggerState) :
    logger_init ident level target s = (SocketHelper.GAMING_ERROR_INVALID_PARAM, s, []) ∧
    logger_init (some (bytes "gaming-client")) LOG_LEVEL_INFO LOG_TARGET_CONSOLE initialState
      = (-2, initialState, []) ∧
    (logger_init (some (bytes "gaming-client")) LOG_LEVEL_INFO LOG_TARGET_CONSOLE
        initialState).2.1.logger_initialized = false := by
  have h : level < LOG_LEVEL_ERROR ∨ level > LOG_LEVEL_DEBUG := by
    simp only [LOG_LEVEL_ERROR, LOG_LEVEL_DEBUG]
    omega
  refine ⟨?_, ?_, ?_⟩
  · simp only [logger_init, h, if_true]
  · decide
  · decide

/-- C15 (evaluation at the failing input): `logger_set_level` returns
`GAMING_ERROR_INVALID_PARAM` and leaves the level as it was, for every value;
so after `logger_set_level(LOG_LEVEL_ERROR)` on the initial state
`logger_get_level` still returns `LOG_LEVEL_INFO`. -/
theorem logger_set_level_rejects_all (level : Int) (s : LoggerState) :
    logger_set_level level s = (SocketHelper.GAMING_ERROR_INVALID_PARAM, s) ∧
    (logger_set_level LOG_LEVEL_ERROR initialState).1 = -2 ∧
    logger_get_level (logger_set_level LOG_LEVEL_ERROR initialState).2 = LOG_LEVEL_INFO := by
  have h : level < LOG_LEVEL_ERROR ∨ level > LOG_LEVEL_DEBUG := by
    simp only [LOG_LEVEL_ERROR, LOG_LEVEL_DEBUG]
    omega
  refine ⟨?_, ?_, ?_⟩
  · simp only [logger_set_level, h, if_true]
  · decide
  · decide

/-- C16: for every logger state and every level `l`, `logger_should_log l` is
true if and only if the logger is initialised and `l` is at least the current
level, the levels being ordered DEBUG < INFO < WARN < ERROR; with the current
level INFO on an initialised logger ERROR, WARN and INFO are logged and DEBUG
is not; on an uninitialised logger nothing is logged. -/
theorem should_log_iff (s : LoggerState) (l : Int) (ident : List Nat) (lvl tgt : Int) :
    (logger_should_log l s = true ↔ (s.logger_initialized = true ∧ s.current_log_level ≤ l)) ∧
    (LOG_LEVEL_DEBUG < LOG_LEVEL_INFO ∧ LOG_LEVEL_INFO < LOG_LEVEL_WARN ∧
      LOG_LEVEL_WARN < LOG_LEVEL_ERROR) ∧
    logger_should_log LOG_LEVEL_ERROR ⟨true, ident, LOG_LEVEL_INFO, tgt⟩ = true ∧
    logger_should_log LOG_LEVEL_WARN ⟨true, ident, LOG_LEVEL_INFO, tgt⟩ = true ∧
    logger_should_log LOG_LEVEL_INFO ⟨true, ident, LOG_LEVEL_INFO, tgt⟩ = true ∧
    logger_should_log LOG_LEVEL_DEBUG ⟨true, ident, LOG_LEVEL_INFO, tgt⟩ = false ∧
    logger_should_log l ⟨false, ident, lvl, tgt⟩ = false := by
  refine ⟨?_, by decide, rfl, rfl, rfl, rfl, ?_⟩
  · cases hi : s.logger_initialized <;> simp [logger_should_log, hi]
  · simp [logger_should_log]

end Logger

namespace ConfigParser

/-! ## Claims about the configuration parser -/

theorem cmpBytes_eq_zero (a b : List Nat) (ha : ∀ c ∈ a, c ≠ 0) (hb : ∀ c ∈ b, c ≠ 0) :
    cmpBytes a b = 0 ↔ a = b := by
  induction a generalizing b with
  | nil =>
    cases b with
    | nil => simp [cmpBytes]
    | cons y ys =>
      have hy : y ≠ 0 := hb y (by simp)
      simp only [cmpBytes]
      constructor
      · intro h; omega
      · intro h; cases h
  | cons x xs ih =>
    have hx : x ≠ 0 := ha x (by simp)
    cases b with
    | nil =>
      simp only [cmpBytes]
      constructor
      · intro h; omega
      · intro h; cases h
    | cons y ys =>
      simp only [cmpBytes]
      by_cases hxy : x = y
      · subst hxy
        simp only [if_true, List.cons.injEq, true_and]
        exact ih ys (fun c hc => ha c (List.mem_cons_of_mem _ hc))
          (fun c hc => hb c (List.mem_cons_of_mem _ hc))
      · simp only [hxy, if_false, List.cons.injEq, false_and, iff_false]
        omega

theorem cstr_ne_zero (s : List Nat) : ∀ c ∈ SocketHelper.cstr s, c ≠ 0 := by
  intro c hc
  have := List.mem_takeWhile_imp hc
  simpa using this

theorem tolower_ne_zero (l : List Nat) (h : ∀ c ∈ l, c ≠ 0) : ∀ c ∈ l.map tolower, c ≠ 0 := by
  intro c hc
  obtain ⟨d, hd, rfl⟩ := List.mem_map.mp hc
  have := h d hd
  unfold tolower
  split_ifs <;> omega

/-- C18: for every boolean `b`, the string `config_parser_set_bool` hands to
`config_parser_set_string` is `"1"` for true and `"0"` for false; the decision
of `config_parser_get_bool` on that string is `b`, also when the string comes
back from the store as a line; and the decision on any string is true exactly
when the string is `"1"` or is `"true"` or `"yes"` once lowered. -/
theorem bool_encoding_round_trip (b : Bool) (buffer : List Nat) (initialized : Bool)
    (env : UciEnv) (config_name sect option : Option (List Nat)) (c s o : List Nat) :
    config_parser_set_bool initialized env config_name sect option b
      = config_parser_set_string initialized env config_name sect option
          (some (bool_value_string b)) ∧
    bool_value_string true = [49] ∧
    bool_value_string false = [48] ∧
    bool_of_buffer (bool_value_string b) = b ∧
    config_parser_get_bool true (storeEnv (bool_value_string b)) (some c) (some s) (some o) true
      = (SocketHelper.GAMING_OK, some b) ∧
    (bool_of_buffer buffer = true ↔
      (SocketHelper.cstr buffer = [49] ∨
       (SocketHelper.cstr buffer).map tolower = [116, 114, 117, 101] ∨
       (SocketHelper.cstr buffer).map tolower = [121, 101, 115])) := by
  refine ⟨rfl, by decide, by decide, ?_, ?_, ?_⟩
  · cases b <;> decide
  · cases b <;> rfl
  · have h1 : SocketHelper.cstr (bytes "1") = [49] := by decide
    have h2 : (SocketHelper.cstr (bytes "true")).map tolower = [116, 114, 117, 101] := by decide
    have h3 : (SocketHelper.cstr (bytes "yes")).map tolower = [121, 101, 115] := by decide
    have e1 : strcmp buffer (bytes "1") = 0 ↔ SocketHelper.cstr buffer = [49] := by
      unfold strcmp
      rw [cmpBytes_eq_zero _ _ (cstr_ne_zero _) (cstr_ne_zero _), h1]
    have e2 : strcasecmp buffer (bytes "true") = 0
        ↔ (SocketHelper.cstr buffer).map tolower = [116, 114, 117, 101] := by
      unfold strcasecmp
      rw [cmpBytes_eq_zero _ _ (tolower_ne_zero _ (cstr_ne_zero _))
        (tolower_ne_zero _ (cstr_ne_zero _)), h2]
    have e3 : strcasecmp buffer (bytes "yes") = 0
        ↔ (SocketHelper.cstr buffer).map tolower = [121, 101, 115] := by
      unfold strcasecmp
      rw [cmpBytes_eq_zero _ _ (tolower_ne_zero _ (cstr_ne_zero _))
        (tolower_ne_zero _ (cstr_ne_zero _)), h3]
    simp only [bool_of_buffer, Bool.or_eq_true, decide_eq_true_eq, e1, e2, e3, or_assoc]

end ConfigParser
